import Mathlib

/-!
Verification development for the bom-render persistence layer.

The development shallowly embeds the two source modules:

* `backend/models.py` — record access over four relational tables
  (workflows, knowledge_base, pending_approvals, workflow_results),
  modelled as Lean lists of row structures, with SQL behaviour
  (`ILIKE` pattern matching, `ORDER BY created_at DESC`, `LIMIT`,
  `IN (...)` lists, `CREATE TABLE IF NOT EXISTS`) made explicit.
* `backend/services/file_storage_service.py` — artifact storage on a
  durable disk, modelled as an association list from paths to contents,
  with `os.path.join` semantics and the module's import list made
  explicit (the module never imports `json`).

Timestamps are modelled as natural numbers supplied by the caller
(`CURRENT_TIMESTAMP` becomes an explicit `now` argument).
-/

/-- Python truthiness of an optional string: `None` and `""` are falsy. -/
def pyTruthy : Option String → Bool
  | none => false
  | some s => s != ""

/-- Insert an element into a list kept in descending `key` order.
Models the placement performed by `ORDER BY key DESC`. -/
def insertDescBy {α : Type} (key : α → Nat) (a : α) : List α → List α
  | [] => [a]
  | b :: l => if key a ≤ key b then b :: insertDescBy key a l else a :: b :: l

/-- Sort a list in descending `key` order (models `ORDER BY key DESC`). -/
def sortDescBy {α : Type} (key : α → Nat) : List α → List α
  | [] => []
  | a :: l => insertDescBy key a (sortDescBy key l)

/-- SQL `LIKE`/`ILIKE` pattern matching over character lists: the pattern
character `%` matches any sequence, `_` matches any single character, a
backslash escapes the following pattern character, and every other pattern
character matches a single text character; the comparison is
case-insensitive (`ILIKE`), via `Char.toLower`. -/
def likeMatches : List Char → List Char → Bool
  | [], s => s.isEmpty
  | c :: p, s =>
    if c = '%' then s.tails.any (fun s2 => likeMatches p s2)
    else
      match s with
      | [] => false
      | d :: s2 =>
        if c = '_' then likeMatches p s2
        else if c = '\\' then
          match p with
          | [] => false
          | e :: p2 => decide (e.toLower = d.toLower) && likeMatches p2 s2
        else decide (c.toLower = d.toLower) && likeMatches p s2

/-- The characters of a string, lower-cased. -/
def lowerStr (s : String) : List Char := s.data.map Char.toLower

/-- `q` occurs as a contiguous sublist of `s` (boolean infix test). -/
def isInfixChars (q s : List Char) : Bool := s.tails.any (fun t => q.isPrefixOf t)

/-- `q` occurs as a case-insensitive substring of `s`.  This is the
specification's notion of matching for `search`. -/
def ciSubstr (q s : String) : Bool := isInfixChars (lowerStr q) (lowerStr s)

/-- `ciSubstr` lifted to a nullable column: a NULL column never matches. -/
def optCiSubstr (q : String) : Option String → Bool
  | none => false
  | some s => ciSubstr q s

/-- The query contains none of the `LIKE` metacharacters `%`, `_`, `\`. -/
def wildcardFree (q : String) : Bool :=
  q.data.all (fun c => decide (c ≠ '%') && decide (c ≠ '_') && decide (c ≠ '\\'))

/-! ## models.py — tables and record access -/

/-- A row of the `knowledge_base` table (schema from `init_db`). -/
structure KBRow where
  id : Nat
  material_name : String
  part_number : Option String
  description : Option String
  classification_label : Option Int
  confidence_level : Option String
  supplier_info : Option String
  created_at : Nat
  workflow_id : Option String
  approved_by : Option String
  approved_at : Option Nat
  metadata : Option String
deriving DecidableEq, Repr

/-- The `WHERE` clause of `search_items` for a non-empty query: the query is
interpolated, unescaped, as `f'%{query}%'` into three `ILIKE` tests joined
by `OR`.  An `ILIKE` test against a NULL column is not true. -/
def kbRowMatches (query : String) (r : KBRow) : Bool :=
  let p := ('%' :: query.data) ++ ['%']
  likeMatches p r.material_name.data ||
    (match r.part_number with
     | none => false
     | some s => likeMatches p s.data) ||
    (match r.description with
     | none => false
     | some s => likeMatches p s.data)

/-- Specification-side predicate (from the spec's words, for comparison):
the query is a case-insensitive substring of `material_name`,
`part_number`, or `description`. -/
def specRowMatches (query : String) (r : KBRow) : Bool :=
  ciSubstr query r.material_name || optCiSubstr query r.part_number ||
    optCiSubstr query r.description

/-- `KnowledgeBaseModel.search_items`: Python's `if query:` takes the
filtered branch exactly when `query` is non-empty; both branches order by
`created_at DESC` and apply `LIMIT`. -/
def search_items (db : List KBRow) (query : String) (lim : Nat) : List KBRow :=
  if query != "" then
    (sortDescBy (fun r => r.created_at) (db.filter (kbRowMatches query))).take lim
  else
    (sortDescBy (fun r => r.created_at) db).take lim

/-- Round a rational to one decimal place, as `round(x, 1)` does. -/
def roundTo1 (q : ℚ) : ℚ := ((round (10 * q) : ℤ) : ℚ) / 10

/-- The record returned by `KnowledgeBaseModel.get_stats`. -/
structure Stats where
  total_items : Nat
  total_workflows : Nat
  total_matches : Nat
  match_rate : ℚ
deriving DecidableEq, Repr

/-- `KnowledgeBaseModel.get_stats`: three `COUNT` queries, then
`match_rate = (high / total * 100) if total > 0 else 0`, rounded to one
decimal in the returned record; `total_matches` is set to `total_items`. -/
def get_stats (db : List KBRow) : Stats :=
  let total_items := db.length
  let total_workflows := ((db.filterMap (fun r => r.workflow_id)).dedup).length
  let high_confidence_items := db.countP (fun r => r.confidence_level == some "high")
  let match_rate : ℚ :=
    if total_items > 0 then
      (high_confidence_items : ℚ) / (total_items : ℚ) * 100
    else 0
  { total_items := total_items
    total_workflows := total_workflows
    total_matches := total_items
    match_rate := roundTo1 match_rate }

/-- A row of the `workflows` table (schema from `init_db`). -/
structure WorkflowRow where
  id : String
  status : String
  comparison_mode : String
  created_at : Nat
  updated_at : Nat
  progress : Int
  current_stage : Option String
  message : Option String
  wi_document_path : Option String
  item_master_path : Option String
deriving DecidableEq, Repr

/-- Database-side errors surfaced by the record access layer, together with
the specification taxonomy's `InvalidArgumentError` (which the code could
raise before touching the database, were such a guard present). -/
inductive DbError where
  | UniqueViolation : String → DbError
  | ProgrammingError : String → DbError
  | InvalidArgumentError : String → DbError
deriving DecidableEq, Repr

/-- The row inserted by `create_workflow`: the DDL defaults supply
`status = 'pending'`, `progress = 0` and both timestamps. -/
def mkWorkflowRow (now : Nat) (workflow_id comparison_mode : String)
    (wi_path item_path : Option String) : WorkflowRow :=
  { id := workflow_id
    status := "pending"
    comparison_mode := comparison_mode
    created_at := now
    updated_at := now
    progress := 0
    current_stage := none
    message := none
    wi_document_path := wi_path
    item_master_path := item_path }

/-- `WorkflowModel.create_workflow`: a plain `INSERT`; the primary key on
`workflows.id` makes the database reject a duplicate identifier. -/
def create_workflow (db : List WorkflowRow) (now : Nat)
    (workflow_id comparison_mode : String) (wi_path item_path : Option String) :
    Except DbError (List WorkflowRow) :=
  if db.any (fun r => r.id == workflow_id) then
    Except.error (DbError.UniqueViolation "duplicate key value violates unique constraint")
  else
    Except.ok (db ++ [mkWorkflowRow now workflow_id comparison_mode wi_path item_path])

/-- The `SET` clause of `update_workflow_status` applied to one row:
`status` and `updated_at` are always written; `progress` is written when the
argument `is not None`; `current_stage` and `message` are written when the
argument is truthy (`if stage:` / `if message:`). -/
def applyStatusUpdate (now : Nat) (status : String) (progress : Option Int)
    (stage message : Option String) (r : WorkflowRow) : WorkflowRow :=
  { r with
    status := status
    updated_at := now
    progress := match progress with
      | some p => p
      | none => r.progress
    current_stage := if pyTruthy stage then stage else r.current_stage
    message := if pyTruthy message then message else r.message }

/-- `WorkflowModel.update_workflow_status`: an unconditional `UPDATE`
keyed on `id` (zero affected rows is not detected). -/
def update_workflow_status (db : List WorkflowRow) (now : Nat)
    (workflow_id status : String) (progress : Option Int)
    (stage message : Option String) : List WorkflowRow :=
  db.map (fun r =>
    if r.id == workflow_id then applyStatusUpdate now status progress stage message r
    else r)

/-- `WorkflowModel.get_workflow`: `SELECT * ... WHERE id = %s`, first hit
or `None`. -/
def get_workflow (db : List WorkflowRow) (workflow_id : String) : Option WorkflowRow :=
  db.find? (fun r => r.id == workflow_id)

/-- A row of the `pending_approvals` table (schema from `init_db`). -/
structure PendingRow where
  id : Nat
  workflow_id : String
  item_data : String
  status : String
  created_at : Nat
  reviewed_by : Option String
  reviewed_at : Option Nat
  review_notes : Option String
deriving DecidableEq, Repr

/-- `PendingApprovalModel.get_pending_items`: Python's `if workflow_id:`
adds the per-workflow filter only when `workflow_id` is truthy (not `None`
and not the empty string); both branches keep `status = 'pending'` rows,
newest first. -/
def get_pending_items (db : List PendingRow) (workflow_id : Option String) :
    List PendingRow :=
  if pyTruthy workflow_id then
    sortDescBy (fun r => r.created_at)
      (db.filter (fun r => (some r.workflow_id == workflow_id) && (r.status == "pending")))
  else
    sortDescBy (fun r => r.created_at) (db.filter (fun r => r.status == "pending"))

/-- `PendingApprovalModel.update_approval_status`: the code joins one
`%s` placeholder per requested identifier and interpolates the result into
`WHERE id IN (...)` with no emptiness guard.  When `item_ids` is empty the
placeholder string is empty and the statement sent to the database reads
`... WHERE id IN ()`, which the SQL engine rejects as a syntax error
(modelled by the `ProgrammingError` branch); no row is modified in that
case.  Otherwise every row whose id is listed is updated in one statement,
with `reviewed_at` stamped to the current time. -/
def update_approval_status (db : List PendingRow) (now : Nat)
    (item_ids : List Nat) (status : String) (reviewer notes : Option String) :
    List PendingRow × Except DbError Unit :=
  let placeholders := String.intercalate "," (item_ids.map (fun _ => "%s"))
  if placeholders = "" then
    (db, Except.error (DbError.ProgrammingError "syntax error at or near the empty IN list"))
  else
    (db.map (fun r =>
      if item_ids.contains r.id then
        { r with
          status := status
          reviewed_by := reviewer
          reviewed_at := some now
          review_notes := notes }
      else r),
     Except.ok ())

/-! ## models.py — schema initialization -/

/-- A database schema: the list of tables, each a name with its columns. -/
abbrev Schema : Type := List (String × List String)

/-- The table names present in a schema. -/
def tableNames (db : Schema) : List String := db.map (fun t => t.1)

/-- `CREATE TABLE IF NOT EXISTS`: a no-op when a table of that name
already exists, regardless of its columns. -/
def createTableIfNotExists (db : Schema) (name : String) (cols : List String) : Schema :=
  if name ∈ tableNames db then db else db ++ [(name, cols)]

/-- Columns of the `workflows` table, from the DDL in `init_db`. -/
def workflowsColumns : List String :=
  ["id", "status", "comparison_mode", "created_at", "updated_at", "progress",
   "current_stage", "message", "wi_document_path", "item_master_path"]

/-- Columns of the `knowledge_base` table, from the DDL in `init_db`. -/
def knowledgeBaseColumns : List String :=
  ["id", "material_name", "part_number", "description", "classification_label",
   "confidence_level", "supplier_info", "created_at", "workflow_id",
   "approved_by", "approved_at", "metadata"]

/-- Columns of the `pending_approvals` table, from the DDL in `init_db`. -/
def pendingApprovalsColumns : List String :=
  ["id", "workflow_id", "item_data", "status", "created_at", "reviewed_by",
   "reviewed_at", "review_notes"]

/-- Columns of the `workflow_results` table, from the DDL in `init_db`. -/
def workflowResultsColumns : List String :=
  ["id", "workflow_id", "results_data", "summary_data", "created_at"]

/-- `init_db`: four `CREATE TABLE IF NOT EXISTS` statements in order. -/
def init_db (db : Schema) : Schema :=
  createTableIfNotExists
    (createTableIfNotExists
      (createTableIfNotExists
        (createTableIfNotExists db "workflows" workflowsColumns)
        "knowledge_base" knowledgeBaseColumns)
      "pending_approvals" pendingApprovalsColumns)
    "workflow_results" workflowResultsColumns

/-! ## file_storage_service.py — artifact storage -/

/-- Python exceptions observable from the artifact storage service.
`RuntimeError` is the code's realization of the specification's
`StorageWriteError`/`StorageReadError`; `FileNotFoundError` realizes
`NotFoundError`; a raw `OSError` is an unwrapped operating-system failure. -/
inductive PyError where
  | OSError : String → PyError
  | FileNotFoundError : String → PyError
  | RuntimeError : String → PyError
deriving DecidableEq, Repr

/-- The error is the `RuntimeError` wrapper (the code's typed wrapping of
storage failures). -/
def isRuntimeError : PyError → Bool
  | PyError.RuntimeError _ => true
  | _ => false

/-- The first character of the string is `/` (Python `startswith('/')`,
which is what `os.path.join` tests). -/
def strStartsWithSlash (s : String) : Bool := s.data.head? == some '/'

/-- The last character of the string is `/` (Python `endswith('/')`). -/
def strEndsWithSlash (s : String) : Bool := s.data.getLast? == some '/'

/-- POSIX `os.path.join` for two components: an absolute second component
discards the first; otherwise a separator is inserted unless one is
already present. -/
def osPathJoin (a b : String) : String :=
  if strStartsWithSlash b then b
  else if a = "" then b
  else if strEndsWithSlash a then a ++ b
  else a ++ "/" ++ b

/-- `FileStorageService.base_dir` (the Render persistent disk). -/
def base_dir : String := "/var/data"

/-- `self.upload_dir = os.path.join(self.base_dir, "uploads")`. -/
def upload_dir : String := osPathJoin base_dir "uploads"

/-- `self.results_dir = os.path.join(self.base_dir, "results")`. -/
def results_dir : String := osPathJoin base_dir "results"

/-- The module-level imports of `file_storage_service.py`.  Note that
`json` is absent: the module imports only `os`, `shutil`, `logging` and
`fastapi.UploadFile`, yet `save_results`/`get_results` refer to the global
name `json`. -/
def fileStorageImports : List String := ["os", "shutil", "logging", "UploadFile"]

/-- The durable disk: a finite map from paths to file contents,
represented as an association list with at most one entry per path. -/
abbrev FileSys : Type := List (String × String)

/-- Writing a file replaces any previous content at the same path
(whole-file overwrite; a path denotes at most one file). -/
def fsWrite (fs : FileSys) (path content : String) : FileSys :=
  (path, content) :: fs.filter (fun e => e.1 != path)

/-- Reading a file by path. -/
def fsRead (fs : FileSys) (path : String) : Option String :=
  (fs.find? (fun e => e.1 == path)).map (fun e => e.2)

/-- `os.path.exists`. -/
def fsExists (fs : FileSys) (path : String) : Bool :=
  fs.any (fun e => e.1 == path)

/-- A structured (JSON-serializable) document, the type of
`results_data`. -/
inductive JsonValue where
  | null : JsonValue
  | bool : Bool → JsonValue
  | num : Int → JsonValue
  | str : String → JsonValue
  | arr : List JsonValue → JsonValue
  | obj : List (String × JsonValue) → JsonValue

/-- `FileStorageService.save_file`: `os.makedirs` runs before the
`try` block, so a directory-creation failure (`mkdirErr`) propagates as
the raw `OSError`; a failure of the open/copy inside the `try` block
(`writeErr`) is caught and re-raised as
`RuntimeError("Failed to save file: ...")`; on success the stream's bytes
are written to `os.path.join(upload_dir, workflow_id, file.filename)` and
that path is returned. -/
def save_file (fs : FileSys) (filename content workflow_id : String)
    (mkdirErr writeErr : Option String) : FileSys × Except PyError String :=
  let workflow_path := osPathJoin upload_dir workflow_id
  match mkdirErr with
  | some e => (fs, Except.error (PyError.OSError e))
  | none =>
    let file_path := osPathJoin workflow_path filename
    match writeErr with
    | some e => (fs, Except.error (PyError.RuntimeError ("Failed to save file: " ++ e)))
    | none => (fsWrite fs file_path content, Except.ok file_path)

/-- The path `results/<workflow_id>.json` used by `save_results` and
`get_results`. -/
def resultsPath (workflow_id : String) : String :=
  osPathJoin results_dir (workflow_id ++ ".json")

/-- `FileStorageService.save_results`: if the `open` call itself fails
(`openErr`), the exception is caught and wrapped.  Otherwise
`open(results_file, 'w')` truncates/creates the target, and the next
statement evaluates the global name `json`, which `fileStorageImports`
does not contain — so `NameError("name 'json' is not defined")` is raised
inside the `try` block, caught by the blanket `except`, and re-raised as a
`RuntimeError`.  The function can therefore never return the stored path:
serialization is unreachable in this module as written. -/
def save_results (fs : FileSys) (workflow_id : String) (results_data : JsonValue)
    (openErr : Option String) : FileSys × Except PyError String :=
  let results_file := resultsPath workflow_id
  match openErr with
  | some e => (fs, Except.error (PyError.RuntimeError ("Failed to save results: " ++ e)))
  | none =>
    (fsWrite fs results_file "",
     Except.error (PyError.RuntimeError "Failed to save results: name 'json' is not defined"))

/-- `FileStorageService.get_results`: absence is tested first and raises
`FileNotFoundError`; for a present file, a failing `open`/read
(`readErr`) or — because `json` is not imported — the `json.load` call
raise inside the `try` block and are re-raised as
`RuntimeError("Failed to read results: ...")`. -/
def get_results (fs : FileSys) (workflow_id : String) (readErr : Option String) :
    Except PyError JsonValue :=
  let results_file := resultsPath workflow_id
  if fsExists fs results_file then
    match readErr with
    | some e => Except.error (PyError.RuntimeError ("Failed to read results: " ++ e))
    | none => Except.error (PyError.RuntimeError "Failed to read results: name 'json' is not defined")
  else
    Except.error (PyError.FileNotFoundError "Results file not found")

/-! ## Concrete rows used by counterexamples and witnesses -/

/-- A knowledge-base row whose three searchable fields do not contain a
percent sign anywhere. -/
def kbWildcardRow : KBRow :=
  { id := 1
    material_name := "abc"
    part_number := none
    description := none
    classification_label := none
    confidence_level := none
    supplier_info := none
    created_at := 0
    workflow_id := none
    approved_by := none
    approved_at := none
    metadata := none }

/-- A knowledge-base row with high confidence, used by witnesses. -/
def kbHighRow : KBRow :=
  { id := 2
    material_name := "Steel Bolt M8"
    part_number := some "SB-19"
    description := some "zinc plated"
    classification_label := some 3
    confidence_level := some "high"
    supplier_info := none
    created_at := 7
    workflow_id := some "w1"
    approved_by := some "alice"
    approved_at := some 7
    metadata := none }

/-- A workflow row used by witnesses. -/
def wfRow0 : WorkflowRow :=
  { id := "w1"
    status := "pending"
    comparison_mode := "full"
    created_at := 1
    updated_at := 1
    progress := 0
    current_stage := none
    message := none
    wi_document_path := some "/var/data/uploads/w1/wi.pdf"
    item_master_path := none }

/-- A pending-approval row in workflow `w1`, used by witnesses. -/
def pendRow1 : PendingRow :=
  { id := 1
    workflow_id := "w1"
    item_data := "candidate-1"
    status := "pending"
    created_at := 3
    reviewed_by := none
    reviewed_at := none
    review_notes := none }

/-- A pending-approval row in a different workflow `w2`. -/
def pendRow2 : PendingRow :=
  { id := 2
    workflow_id := "w2"
    item_data := "candidate-2"
    status := "pending"
    created_at := 5
    reviewed_by := none
    reviewed_at := none
    review_notes := none }

/-! ## Helper lemmas about the embedded operations -/

theorem mem_insertDescBy {α : Type} (key : α → Nat) (a x : α) (l : List α) :
    x ∈ insertDescBy key a l ↔ x = a ∨ x ∈ l := by
  induction l with
  | nil => simp [insertDescBy]
  | cons b t ih =>
    by_cases h : key a ≤ key b
    · simp only [insertDescBy, if_pos h, List.mem_cons, ih]
      tauto
    · simp only [insertDescBy, if_neg h, List.mem_cons]

theorem mem_sortDescBy {α : Type} (key : α → Nat) (x : α) (l : List α) :
    x ∈ sortDescBy key l ↔ x ∈ l := by
  induction l with
  | nil => simp [sortDescBy]
  | cons a t ih =>
    simp only [sortDescBy, mem_insertDescBy, ih, List.mem_cons]

theorem pairwise_insertDescBy {α : Type} (key : α → Nat) (a : α) (l : List α)
    (h : l.Pairwise (fun x y => key y ≤ key x)) :
    (insertDescBy key a l).Pairwise (fun x y => key y ≤ key x) := by
  induction l with
  | nil => simp [insertDescBy]
  | cons b t ih =>
    rw [List.pairwise_cons] at h
    obtain ⟨hb, ht⟩ := h
    by_cases hab : key a ≤ key b
    · simp only [insertDescBy, if_pos hab]
      rw [List.pairwise_cons]
      refine ⟨?_, ih ht⟩
      intro y hy
      rcases (mem_insertDescBy key a y t).mp hy with rfl | hy2
      · exact hab
      · exact hb y hy2
    · simp only [insertDescBy, if_neg hab]
      rw [List.pairwise_cons]
      refine ⟨?_, List.Pairwise.cons hb ht⟩
      intro y hy
      rcases List.mem_cons.mp hy with rfl | hy2
      · exact Nat.le_of_lt (Nat.lt_of_not_le hab)
      · exact Nat.le_trans (hb y hy2) (Nat.le_of_lt (Nat.lt_of_not_le hab))

theorem pairwise_sortDescBy {α : Type} (key : α → Nat) (l : List α) :
    (sortDescBy key l).Pairwise (fun x y => key y ≤ key x) := by
  induction l with
  | nil => simp [sortDescBy]
  | cons a t ih =>
    simp only [sortDescBy]
    exact pairwise_insertDescBy key a _ ih

theorem likeMatches_pct (p s : List Char) :
    likeMatches ('%' :: p) s = s.tails.any (fun s2 => likeMatches p s2) := by
  cases s with
  | nil => rw [likeMatches.eq_2, if_pos rfl]
  | cons d s2 =>
    cases p with
    | nil => rw [likeMatches.eq_3, if_pos rfl]
    | cons e p2 => rw [likeMatches.eq_4, if_pos rfl]

theorem likeMatches_plain_nil (c : Char) (p : List Char) (hc1 : ¬c = '%') :
    likeMatches (c :: p) [] = false := by
  rw [likeMatches.eq_2, if_neg hc1]

theorem likeMatches_plain_cons (c d : Char) (p s2 : List Char) (hc1 : ¬c = '%')
    (hc2 : ¬c = '_') (hc3 : ¬c = '\\') :
    likeMatches (c :: p) (d :: s2)
      = (decide (c.toLower = d.toLower) && likeMatches p s2) := by
  cases p with
  | nil => rw [likeMatches.eq_3, if_neg hc1, if_neg hc2, if_neg hc3]
  | cons e p2 => rw [likeMatches.eq_4, if_neg hc1, if_neg hc2, if_neg hc3]

theorem likeMatches_plain_sound (q : List Char)
    (hq : ∀ c ∈ q, c ≠ '%' ∧ c ≠ '_' ∧ c ≠ '\\') :
    ∀ s : List Char, likeMatches (q ++ ['%']) s = true →
      q.map Char.toLower <+: s.map Char.toLower := by
  induction q with
  | nil =>
    intro s _
    exact ⟨s.map Char.toLower, rfl⟩
  | cons c q ih =>
    intro s h
    obtain ⟨hc1, hc2, hc3⟩ := hq c (List.mem_cons_self c q)
    rw [List.cons_append] at h
    cases s with
    | nil =>
      rw [likeMatches_plain_nil c _ hc1] at h
      exact absurd h (by simp)
    | cons d s2 =>
      rw [likeMatches_plain_cons c d _ s2 hc1 hc2 hc3] at h
      simp only [Bool.and_eq_true, decide_eq_true_eq] at h
      obtain ⟨hcd, hrec⟩ := h
      obtain ⟨t, ht⟩ := ih (fun c2 hc => hq c2 (List.mem_cons_of_mem c hc)) s2 hrec
      refine ⟨t, ?_⟩
      simp only [List.map_cons, List.cons_append, ht, hcd]

theorem likeMatches_ciSubstr_sound (q s : String)
    (hwf : wildcardFree q = true)
    (h : likeMatches (('%' :: q.data) ++ ['%']) s.data = true) :
    ciSubstr q s = true := by
  have hq2 : ∀ c ∈ q.data, c ≠ '%' ∧ c ≠ '_' ∧ c ≠ '\\' := by
    intro c hc
    have h2 := List.all_eq_true.mp hwf c hc
    simpa [Bool.and_eq_true, decide_eq_true_eq, and_assoc] using h2
  rw [List.cons_append, likeMatches_pct] at h
  obtain ⟨s1, hs1mem, hs1⟩ := List.any_eq_true.mp h
  have hsuf : s1 <:+ s.data := (List.mem_tails s1 s.data).mp hs1mem
  have hpre := likeMatches_plain_sound q.data hq2 s1 hs1
  unfold ciSubstr isInfixChars lowerStr
  apply List.any_eq_true.mpr
  refine ⟨s1.map Char.toLower, ?_, ?_⟩
  · exact (List.mem_tails _ _).mpr (hsuf.map Char.toLower)
  · exact List.isPrefixOf_iff_prefix.mpr hpre

/-! ## Claim theorems -/

/-- C4 (counterexample): the claim that every row returned by
`search_items` for a non-empty query has the query as a case-insensitive
substring of one of the three searched fields fails at the query `"%"`:
the unescaped interpolation turns it into the `ILIKE` pattern `%%%`,
which matches the row `kbWildcardRow` although `"%"` is not a substring
of any of its fields. -/
theorem search_items_wildcard_leak :
    search_items [kbWildcardRow] "%" 50 = [kbWildcardRow]
      ∧ specRowMatches "%" kbWildcardRow = false := by
  decide

/-- C4 (amended): for a non-empty query containing no `LIKE`
metacharacter (`%`, `_`, `\`), `search_items` returns only rows of which
the query is a case-insensitive substring of `material_name`,
`part_number`, or `description`; for the empty query it returns the most
recent `lim` entries unfiltered; in both modes the result is ordered
newest-created first and its length is bounded by `lim`. -/
theorem search_items_spec (db : List KBRow) (q : String) (lim : Nat) :
    (q ≠ "" → wildcardFree q = true →
      ∀ r, r ∈ search_items db q lim → specRowMatches q r = true)
    ∧ search_items db "" lim = (sortDescBy (fun r => r.created_at) db).take lim
    ∧ (search_items db q lim).Pairwise (fun a b => b.created_at ≤ a.created_at)
    ∧ (search_items db q lim).length ≤ lim := by
  refine ⟨?_, rfl, ?_, ?_⟩
  · intro hq hwf r hr
    have hq2 : (q != "") = true := bne_iff_ne.mpr hq
    rw [search_items, if_pos hq2] at hr
    have hr2 := (List.take_sublist _ _).subset hr
    rw [mem_sortDescBy] at hr2
    obtain ⟨hmem, hmatch⟩ := List.mem_filter.mp hr2
    simp only [kbRowMatches, Bool.or_eq_true] at hmatch
    simp only [specRowMatches, Bool.or_eq_true]
    rcases hmatch with (h1 | h2) | h3
    · exact Or.inl (Or.inl (likeMatches_ciSubstr_sound q r.material_name hwf h1))
    · refine Or.inl (Or.inr ?_)
      cases hpn : r.part_number with
      | none => rw [hpn] at h2; exact absurd h2 (by simp)
      | some s =>
        rw [hpn] at h2
        exact likeMatches_ciSubstr_sound q s hwf h2
    · refine Or.inr ?_
      cases hd : r.description with
      | none => rw [hd] at h3; exact absurd h3 (by simp)
      | some s =>
        rw [hd] at h3
        exact likeMatches_ciSubstr_sound q s hwf h3
  · rw [search_items]
    split
    · exact List.Pairwise.sublist (List.take_sublist _ _) (pairwise_sortDescBy _ _)
    · exact List.Pairwise.sublist (List.take_sublist _ _) (pairwise_sortDescBy _ _)
  · rw [search_items]
    split
    · rw [List.length_take]; exact min_le_left _ _
    · rw [List.length_take]; exact min_le_left _ _

/-- C4 (witness): the amended soundness statement applied to a concrete
store and the wildcard-free query `"bolt"`. -/
theorem search_items_spec_witness : specRowMatches "bolt" kbHighRow = true :=
  (search_items_spec [kbHighRow] "bolt" 50).1 (by decide) (by decide) kbHighRow (by decide)

/-- C10: calling `get_pending_items` with the empty string — a non-None
but falsy value — behaves exactly like the no-filter call: the
per-workflow branch is not taken, and every `'pending'` row is returned,
whatever its `workflow_id`. -/
theorem get_pending_items_empty_string_unfiltered (db : List PendingRow) :
    get_pending_items db (some "") = get_pending_items db none
    ∧ (∀ r, r ∈ db → r.status = "pending" → r ∈ get_pending_items db (some "")) := by
  refine ⟨rfl, ?_⟩
  intro r hr hst
  show r ∈ sortDescBy (fun r => r.created_at) (db.filter (fun r => r.status == "pending"))
  rw [mem_sortDescBy]
  exact List.mem_filter.mpr ⟨hr, by simp [hst]⟩

/-- C10 (witness): a pending row of workflow `w2` is returned by
`get_pending_items` called with the empty-string workflow filter. -/
theorem get_pending_items_empty_string_witness :
    pendRow2 ∈ get_pending_items [pendRow1, pendRow2] (some "") :=
  (get_pending_items_empty_string_unfiltered [pendRow1, pendRow2]).2 pendRow2
    (by decide) rfl

/-- C1 (code evaluation): for an empty `item_ids` list no guard fires;
the placeholder string is empty, the statement `... WHERE id IN ()` is
still constructed and sent, and the database answers with a syntax error
(`ProgrammingError`) — not the specification's `InvalidArgumentError`
raised before query construction.  The table is left unchanged. -/
theorem bulk_update_empty_ids_syntax_error (db : List PendingRow) (now : Nat)
    (st : String) (reviewer notes : Option String) :
    update_approval_status db now [] st reviewer notes
      = (db, Except.error
          (DbError.ProgrammingError "syntax error at or near the empty IN list")) := rfl

/-- C2 (code evaluation): `file_storage_service.py` never imports `json`,
so `save_results` always fails with a `RuntimeError` wrapping the
`NameError` (leaving at most a truncated empty file behind), and
`get_results` on the resulting state also fails; the save/get round trip
can never hold. -/
theorem save_results_missing_json_import :
    (save_results [] "wf1" (JsonValue.obj [("a", JsonValue.num 1)]) none).2
      = Except.error
          (PyError.RuntimeError "Failed to save results: name 'json' is not defined")
    ∧ get_results ((save_results [] "wf1" (JsonValue.obj [("a", JsonValue.num 1)]) none).1)
        "wf1" none
      = Except.error
          (PyError.RuntimeError "Failed to read results: name 'json' is not defined")
    ∧ fileStorageImports.contains "json" = false :=
  ⟨rfl, rfl, rfl⟩

/-- C5: `get_stats` returns the row count as `total_items`, the number of
distinct non-null `workflow_id` values as `total_workflows`,
`total_matches` equal to `total_items`, and a `match_rate` that is
`round(100 * H / N, 1)` for `N` rows of which `H` have confidence level
`"high"` — and `0` on an empty table (no division by zero). -/
theorem get_stats_spec (db : List KBRow) :
    (get_stats db).total_items = db.length
    ∧ (get_stats db).total_workflows
        = (db.filterMap (fun r => r.workflow_id)).toFinset.card
    ∧ (get_stats db).total_matches = (get_stats db).total_items
    ∧ (db.length = 0 → (get_stats db).match_rate = 0)
    ∧ (0 < db.length → (get_stats db).match_rate
        = roundTo1 (100 * (db.countP (fun r => r.confidence_level == some "high") : ℚ)
            / (db.length : ℚ))) := by
  refine ⟨rfl, ?_, rfl, ?_, ?_⟩
  · rw [List.card_toFinset]
    rfl
  · intro h
    simp [get_stats, h, roundTo1]
  · intro h
    simp only [get_stats, if_pos h]
    congr 1
    field_simp
    ring

/-- C5 (witness): the statement applied to the empty table and to a
one-row table whose single entry has high confidence. -/
theorem get_stats_spec_witness :
    (get_stats []).match_rate = 0
    ∧ (get_stats [kbHighRow]).match_rate
        = roundTo1 (100 * (([kbHighRow] : List KBRow).countP
            (fun r => r.confidence_level == some "high") : ℚ)
            / (([kbHighRow] : List KBRow).length : ℚ)) :=
  ⟨(get_stats_spec []).2.2.2.1 rfl, (get_stats_spec [kbHighRow]).2.2.2.2 (by decide)⟩

theorem applyStatusUpdate_id (now : Nat) (st : String) (p : Option Int)
    (stg msg : Option String) (r : WorkflowRow) :
    (applyStatusUpdate now st p stg msg r).id = r.id := rfl

theorem find?_cons_pos {α : Type} (p : α → Bool) (a : α) (l : List α)
    (h : p a = true) : (a :: l).find? p = some a :=
  List.find?_cons_of_pos l h

theorem find?_cons_neg {α : Type} (p : α → Bool) (a : α) (l : List α)
    (h : p a = false) : (a :: l).find? p = l.find? p :=
  List.find?_cons_of_neg l (by simp [h])

theorem get_workflow_map_update (db : List WorkflowRow) (now : Nat)
    (wf st : String) (p : Option Int) (stg msg : Option String) :
    get_workflow (update_workflow_status db now wf st p stg msg) wf
      = (get_workflow db wf).map (applyStatusUpdate now st p stg msg) := by
  induction db with
  | nil => rfl
  | cons a t ih =>
    simp only [update_workflow_status, List.map_cons, get_workflow]
    by_cases h : (a.id == wf) = true
    · rw [if_pos h]
      rw [find?_cons_pos (fun r : WorkflowRow => r.id == wf) _ _ h]
      have h2 : ((applyStatusUpdate now st p stg msg a).id == wf) = true := by
        rw [applyStatusUpdate_id]; exact h
      rw [find?_cons_pos (fun r : WorkflowRow => r.id == wf) _ _ h2]
      rfl
    · rw [if_neg h]
      have hf : (a.id == wf) = false := by
        exact Bool.eq_false_iff.mpr h
      rw [find?_cons_neg (fun r : WorkflowRow => r.id == wf) _ _ hf]
      rw [find?_cons_neg (fun r : WorkflowRow => r.id == wf) _ _ hf]
      simp only [get_workflow, update_workflow_status] at ih
      exact ih

/-- C3: `update_workflow_status` performs a partial update: the row found
under the given identifier afterwards is the old row with `status` and
`updated_at` always rewritten, `progress` rewritten only when supplied,
`current_stage` and `message` only when supplied (and truthy); every other
field — identifier, creation time, comparison mode, both stored paths —
retains its prior value, and `updated_at` strictly exceeds its prior value
whenever the clock has advanced past it. -/
theorem update_status_partial_fields (db : List WorkflowRow) (now : Nat)
    (wf st : String) (p : Option Int) (stg msg : Option String)
    (r : WorkflowRow) (h : get_workflow db wf = some r) :
    get_workflow (update_workflow_status db now wf st p stg msg) wf
        = some (applyStatusUpdate now st p stg msg r)
    ∧ (applyStatusUpdate now st p stg msg r).status = st
    ∧ (applyStatusUpdate now st p stg msg r).updated_at = now
    ∧ (p = none → (applyStatusUpdate now st p stg msg r).progress = r.progress)
    ∧ (∀ v : Int, p = some v → (applyStatusUpdate now st p stg msg r).progress = v)
    ∧ (stg = none →
        (applyStatusUpdate now st p stg msg r).current_stage = r.current_stage)
    ∧ (msg = none → (applyStatusUpdate now st p stg msg r).message = r.message)
    ∧ (applyStatusUpdate now st p stg msg r).id = r.id
    ∧ (applyStatusUpdate now st p stg msg r).created_at = r.created_at
    ∧ (applyStatusUpdate now st p stg msg r).comparison_mode = r.comparison_mode
    ∧ (applyStatusUpdate now st p stg msg r).wi_document_path = r.wi_document_path
    ∧ (applyStatusUpdate now st p stg msg r).item_master_path = r.item_master_path
    ∧ (r.updated_at < now →
        r.updated_at < (applyStatusUpdate now st p stg msg r).updated_at) := by
  refine ⟨?_, rfl, rfl, ?_, ?_, ?_, ?_, rfl, rfl, rfl, rfl, rfl, ?_⟩
  · rw [get_workflow_map_update, h]
    rfl
  · intro hp
    subst hp
    rfl
  · intro v hp
    subst hp
    rfl
  · intro hs
    subst hs
    rfl
  · intro hm
    subst hm
    rfl
  · intro hlt
    exact hlt

/-- C3 (witness): updating only the status leaves `progress` untouched
and strictly advances `updated_at`. -/
theorem update_status_partial_fields_witness :
    (applyStatusUpdate 5 "running" none none none wfRow0).progress = wfRow0.progress
    ∧ wfRow0.updated_at < (applyStatusUpdate 5 "running" none none none wfRow0).updated_at := by
  have h := update_status_partial_fields [wfRow0] 5 "w1" "running" none none none wfRow0 rfl
  exact ⟨h.2.2.2.1 rfl, h.2.2.2.2.2.2.2.2.2.2.2.2 (by decide)⟩

theorem find?_append_of_none {α : Type} (p : α → Bool) (l1 l2 : List α)
    (h : l1.find? p = none) : (l1 ++ l2).find? p = l2.find? p := by
  rw [List.find?_append, h, Option.none_or]

/-- C7: after `create_workflow` with a fresh identifier, `get_workflow`
returns the inserted row, whose defaults are status `"pending"` and
progress `0` and whose stored paths are the supplied ones; and
`get_workflow` returns `none` exactly when no row carries the requested
identifier. -/
theorem create_then_get_spec (db : List WorkflowRow) (now : Nat)
    (wf mode : String) (wi item : Option String) :
    (db.any (fun r => r.id == wf) = false →
      create_workflow db now wf mode wi item
          = Except.ok (db ++ [mkWorkflowRow now wf mode wi item])
      ∧ get_workflow (db ++ [mkWorkflowRow now wf mode wi item]) wf
          = some (mkWorkflowRow now wf mode wi item))
    ∧ (mkWorkflowRow now wf mode wi item).status = "pending"
    ∧ (mkWorkflowRow now wf mode wi item).progress = 0
    ∧ (mkWorkflowRow now wf mode wi item).wi_document_path = wi
    ∧ (mkWorkflowRow now wf mode wi item).item_master_path = item
    ∧ (∀ db2 : List WorkflowRow, (∀ r, r ∈ db2 → (r.id == wf) = false) →
        get_workflow db2 wf = none) := by
  refine ⟨?_, rfl, rfl, rfl, rfl, ?_⟩
  · intro h
    constructor
    · rw [create_workflow, h]
      rfl
    · rw [get_workflow]
      have hnone : db.find? (fun r => r.id == wf) = none := by
        rw [List.find?_eq_none]
        intro x hx
        have := List.any_eq_false.mp h x hx
        simp [this]
      rw [find?_append_of_none _ _ _ hnone]
      rw [find?_cons_pos (fun r : WorkflowRow => r.id == wf) _ _ (by simp [mkWorkflowRow])]
  · intro db2 h2
    rw [get_workflow, List.find?_eq_none]
    intro x hx
    simp [h2 x hx]

/-- C7 (witness): creation into the empty store followed by a lookup, and
a lookup of an absent identifier. -/
theorem create_then_get_spec_witness :
    get_workflow ([] ++ [mkWorkflowRow 1 "w9" "full" (some "wi.pdf") none]) "w9"
        = some (mkWorkflowRow 1 "w9" "full" (some "wi.pdf") none)
    ∧ get_workflow [] "w9" = none :=
  ⟨((create_then_get_spec [] 1 "w9" "full" (some "wi.pdf") none).1 (by decide)).2,
   (create_then_get_spec [] 1 "w9" "full" (some "wi.pdf") none).2.2.2.2.2 []
     (by intro r hr; simp at hr)⟩

theorem mem_tableNames_create_self (db : Schema) (n : String) (cols : List String) :
    n ∈ tableNames (createTableIfNotExists db n cols) := by
  rw [createTableIfNotExists]
  split
  · assumption
  · simp [tableNames]

theorem mem_tableNames_create_mono (db : Schema) (n : String) (cols : List String)
    (m : String) (h : m ∈ tableNames db) :
    m ∈ tableNames (createTableIfNotExists db n cols) := by
  rw [createTableIfNotExists]
  split
  · exact h
  · simp only [tableNames, List.map_append]
    exact List.mem_append_left _ h

theorem createTable_eq_of_mem (db : Schema) (n : String) (cols : List String)
    (h : n ∈ tableNames db) : createTableIfNotExists db n cols = db := by
  rw [createTableIfNotExists, if_pos h]

theorem init_db_noop (db : Schema)
    (h1 : "workflows" ∈ tableNames db)
    (h2 : "knowledge_base" ∈ tableNames db)
    (h3 : "pending_approvals" ∈ tableNames db)
    (h4 : "workflow_results" ∈ tableNames db) : init_db db = db := by
  rw [init_db]
  rw [createTable_eq_of_mem _ _ _ h1]
  rw [createTable_eq_of_mem _ _ _ h2]
  rw [createTable_eq_of_mem _ _ _ h3]
  rw [createTable_eq_of_mem _ _ _ h4]

/-- C9: `init_db` ensures the four tables exist, and running it a second
time against the already-initialized store is a no-op: the table set is
identical and no error arises. -/
theorem init_db_spec (db : Schema) :
    "workflows" ∈ tableNames (init_db db)
    ∧ "knowledge_base" ∈ tableNames (init_db db)
    ∧ "pending_approvals" ∈ tableNames (init_db db)
    ∧ "workflow_results" ∈ tableNames (init_db db)
    ∧ init_db (init_db db) = init_db db := by
  have h1 : "workflows" ∈ tableNames (init_db db) := by
    rw [init_db]
    apply mem_tableNames_create_mono
    apply mem_tableNames_create_mono
    apply mem_tableNames_create_mono
    exact mem_tableNames_create_self _ _ _
  have h2 : "knowledge_base" ∈ tableNames (init_db db) := by
    rw [init_db]
    apply mem_tableNames_create_mono
    apply mem_tableNames_create_mono
    exact mem_tableNames_create_self _ _ _
  have h3 : "pending_approvals" ∈ tableNames (init_db db) := by
    rw [init_db]
    apply mem_tableNames_create_mono
    exact mem_tableNames_create_self _ _ _
  have h4 : "workflow_results" ∈ tableNames (init_db db) := by
    rw [init_db]
    exact mem_tableNames_create_self _ _ _
  exact ⟨h1, h2, h3, h4, init_db_noop _ h1 h2 h3 h4⟩

theorem fsRead_fsWrite (fs : FileSys) (p c : String) :
    fsRead (fsWrite fs p c) p = some c := by
  simp [fsRead, fsWrite]

theorem fsWrite_fsWrite (fs : FileSys) (p c1 c2 : String) :
    fsWrite (fsWrite fs p c1) p c2 = fsWrite fs p c2 := by
  simp only [fsWrite]
  rw [List.filter_cons_of_neg (by simp)]
  rw [List.filter_filter]
  simp

theorem osPathJoin_relative (a b : String) (ha0 : a ≠ "")
    (ha : strEndsWithSlash a = false) (hb : strStartsWithSlash b = false) :
    osPathJoin a b = a ++ "/" ++ b := by
  simp [osPathJoin, ha0, ha, hb]

theorem slash_append_ne_empty (b : String) : "/" ++ b ≠ "" := by
  intro hc
  rw [String.ext_iff] at hc
  simp only [String.data_append, List.append_eq_nil] at hc
  exact absurd hc.1 (by decide)

theorem append_slash_ne_empty (a b : String) : a ++ "/" ++ b ≠ "" := by
  intro hc
  rw [String.ext_iff] at hc
  simp only [String.data_append, List.append_eq_nil] at hc
  exact absurd hc.1.2 (by decide)

theorem strEndsWithSlash_append (a b : String) (hb : b ≠ "") :
    strEndsWithSlash (a ++ b) = strEndsWithSlash b := by
  unfold strEndsWithSlash
  rw [String.data_append, List.getLast?_append]
  have hne : b.data ≠ [] := by
    intro hc
    exact hb (String.ext_iff.mpr (by rw [hc]))
  cases hl : b.data.getLast? with
  | none => exact absurd (List.getLast?_eq_none_iff.mp hl) hne
  | some y => rfl

/-- C6 (counterexample): an operating-system failure during the
per-workflow directory creation of `save_file` is raised by `os.makedirs`
before the `try` block, so it propagates as the raw `OSError` and is not
the `RuntimeError` wrapper that realizes `StorageWriteError`. -/
theorem save_file_mkdir_error_unwrapped :
    (save_file [] "doc.pdf" "data" "w1" (some "Permission denied") none).2
        = Except.error (PyError.OSError "Permission denied")
    ∧ isRuntimeError (PyError.OSError "Permission denied") = false :=
  ⟨rfl, rfl⟩

/-- C6 (amended): failures of the open/copy step inside `save_file` and
any failure inside `save_results` are wrapped as `RuntimeError` (the
code's `StorageWriteError`) with the operation named and the underlying
cause attached, and the store is unchanged; `get_results` answers
`FileNotFoundError` (the code's `NotFoundError`) exactly when the results
file is absent and a read-context `RuntimeError` (the code's
`StorageReadError`) when it is present but unreadable — so absence is
always distinguished from other I/O failure.  Only the directory-creation
step of `save_file` escapes this taxonomy (see the counterexample). -/
theorem storage_error_taxonomy (fs : FileSys) (filename content wf : String)
    (doc : JsonValue) (e : String) :
    ((save_file fs filename content wf none (some e)).2
        = Except.error (PyError.RuntimeError ("Failed to save file: " ++ e))
      ∧ (save_file fs filename content wf none (some e)).1 = fs)
    ∧ (save_results fs wf doc (some e)).2
        = Except.error (PyError.RuntimeError ("Failed to save results: " ++ e))
    ∧ (fsExists fs (resultsPath wf) = false →
        get_results fs wf none
          = Except.error (PyError.FileNotFoundError "Results file not found"))
    ∧ (fsExists fs (resultsPath wf) = true →
        get_results fs wf (some e)
          = Except.error (PyError.RuntimeError ("Failed to read results: " ++ e)))
    ∧ (∀ m m2 : String, PyError.RuntimeError m ≠ PyError.FileNotFoundError m2) := by
  refine ⟨⟨rfl, rfl⟩, rfl, ?_, ?_, ?_⟩
  · intro h
    rw [get_results]
    simp [h]
  · intro h
    rw [get_results]
    simp [h]
  · intro m m2 hc
    exact PyError.noConfusion hc

/-- C6 (witness): the taxonomy statement applied to a concrete absent
file and a concrete present file. -/
theorem storage_error_taxonomy_witness :
    get_results [] "w1" none
        = Except.error (PyError.FileNotFoundError "Results file not found")
    ∧ get_results [(resultsPath "w1", "partial")] "w1" (some "Input-output error")
        = Except.error
            (PyError.RuntimeError ("Failed to read results: " ++ "Input-output error")) :=
  ⟨(storage_error_taxonomy [] "f" "c" "w1" JsonValue.null "Input-output error").2.2.1 rfl,
   (storage_error_taxonomy [(resultsPath "w1", "partial")] "f" "c" "w1" JsonValue.null
      "Input-output error").2.2.2.1 rfl⟩

/-- C8 (counterexample): the claim that `save_file` always writes inside
`uploads/<workflow_id>/<filename>` fails for an absolute `workflow_id`:
`os.path.join` discards the upload directory entirely, the file lands at
`/evil/doc.pdf`, outside the uploads tree. -/
theorem save_upload_absolute_id_escapes :
    (save_file [] "doc.pdf" "data" "/evil" none none).2 = Except.ok "/evil/doc.pdf"
    ∧ (save_file [] "doc.pdf" "data" "/evil" none none).1 = [("/evil/doc.pdf", "data")]
    ∧ "/evil/doc.pdf" ≠ upload_dir ++ "/" ++ "/evil" ++ "/" ++ "doc.pdf" := by
  refine ⟨rfl, rfl, ?_⟩
  decide

/-- C8 (amended): for a workflow identifier that is non-empty and neither
starts nor ends with a path separator, and a filename that does not start
with one, `save_file` writes the stream's content to
`uploads/<workflow_id>/<filename>` and returns that path; reading the
path back yields exactly the written content, and writing the same path
again overwrites the previous file instead of duplicating it. -/
theorem save_upload_spec (fs : FileSys) (wf fn c1 c2 : String)
    (hwf1 : strStartsWithSlash wf = false) (hwf2 : strEndsWithSlash wf = false)
    (hwf3 : wf ≠ "") (hfn : strStartsWithSlash fn = false) :
    (save_file fs fn c1 wf none none).2
        = Except.ok (upload_dir ++ "/" ++ wf ++ "/" ++ fn)
    ∧ (save_file fs fn c1 wf none none).1
        = fsWrite fs (upload_dir ++ "/" ++ wf ++ "/" ++ fn) c1
    ∧ fsRead (fsWrite fs (upload_dir ++ "/" ++ wf ++ "/" ++ fn) c1)
        (upload_dir ++ "/" ++ wf ++ "/" ++ fn) = some c1
    ∧ fsWrite (fsWrite fs (upload_dir ++ "/" ++ wf ++ "/" ++ fn) c1)
        (upload_dir ++ "/" ++ wf ++ "/" ++ fn) c2
        = fsWrite fs (upload_dir ++ "/" ++ wf ++ "/" ++ fn) c2 := by
  have h1 : osPathJoin upload_dir wf = upload_dir ++ "/" ++ wf :=
    osPathJoin_relative _ _ (by decide) (by decide) hwf1
  have h2 : osPathJoin (osPathJoin upload_dir wf) fn
      = upload_dir ++ "/" ++ wf ++ "/" ++ fn := by
    rw [h1]
    exact osPathJoin_relative _ _ (append_slash_ne_empty _ _)
      (by
        rw [String.append_assoc,
          strEndsWithSlash_append upload_dir _ (slash_append_ne_empty wf),
          strEndsWithSlash_append _ _ hwf3]
        exact hwf2) hfn
  refine ⟨?_, ?_, fsRead_fsWrite _ _ _, fsWrite_fsWrite _ _ _ _⟩
  · show Except.ok (osPathJoin (osPathJoin upload_dir wf) fn)
        = Except.ok (upload_dir ++ "/" ++ wf ++ "/" ++ fn)
    rw [h2]
  · show fsWrite fs (osPathJoin (osPathJoin upload_dir wf) fn) c1
        = fsWrite fs (upload_dir ++ "/" ++ wf ++ "/" ++ fn) c1
    rw [h2]

/-- C8 (witness): the amended statement at a concrete workflow `w1` and
filename `doc.pdf`. -/
theorem save_upload_spec_witness :
    fsRead (fsWrite [] (upload_dir ++ "/" ++ "w1" ++ "/" ++ "doc.pdf") "data")
        (upload_dir ++ "/" ++ "w1" ++ "/" ++ "doc.pdf") = some "data" :=
  (save_upload_spec [] "w1" "doc.pdf" "data" "other" (by decide) (by decide)
    (by decide) (by decide)).2.2.1
